import Mathlib

/-!
Verification of the SampleSizeCalculator statistical core (src/script.js),
shallowly embedded over the real numbers.

The core is two pure functions:
* `normalInverse` — the Beasley-Springer-Moro rational approximation of the
  inverse standard normal CDF (three branches split at `pLow = 0.02425` and
  `pHigh = 1 - pLow`);
* `calculateSampleSize` — input validation followed by the two-proportion
  sample-size formula with unequal-split adjustment.

JavaScript numbers are embedded as `ℝ`; `Math.ceil` as `Int.ceil`;
a thrown `Error(msg)` as `Except.error msg`.  Note that in `ℝ` division by
zero yields `0` where IEEE-754 yields `Infinity`/`NaN`; the one theorem where
this matters (the missing zero-effect guard) records that the function
returns a success value rather than an error in either semantics.
-/

noncomputable section

/-- Breakpoint `pLow` of `normalInverse` (src/script.js line 45). -/
def pLow : ℝ := 0.02425

/-- Breakpoint `pHigh = 1 - pLow` of `normalInverse` (line 46). -/
def pHigh : ℝ := 1 - pLow

/-- Horner evaluation of the numerator polynomial over coefficients `a`
(central region of `normalInverse`, line 59). -/
def centralNum (r : ℝ) : ℝ :=
  ((((-39.69683028665376 * r + 220.9460984245205) * r + -275.9285104469687) * r +
      138.3577518672690) * r + -30.66479806614716) * r + 2.506628277459239

/-- Horner evaluation of the denominator polynomial over coefficients `b`
(central region of `normalInverse`, line 60; implicit trailing `+ 1`). -/
def centralDen (r : ℝ) : ℝ :=
  ((((-54.47609879822406 * r + 161.5858368580409) * r + -155.6989798598866) * r +
      66.80131188771972) * r + -13.28068155288572) * r + 1

/-- Horner evaluation of the numerator polynomial over coefficients `c`
(tail regions of `normalInverse`, lines 53 and 64). -/
def tailNum (q : ℝ) : ℝ :=
  ((((-0.007784894002430293 * q + -0.3223964580411365) * q + -2.400758277161838) * q +
      -2.549732539343734) * q + 4.374664141464968) * q + 2.938163982698783

/-- Horner evaluation of the denominator polynomial over coefficients `d`
(tail regions of `normalInverse`, lines 54 and 65; implicit trailing `+ 1`). -/
def tailDen (q : ℝ) : ℝ :=
  (((0.007784695709041462 * q + 0.3224671290700398) * q + 2.445134137142996) * q +
      3.754408661907416) * q + 1

/-- `normalInverse` (src/script.js lines 9-69): piecewise rational
approximation of the inverse standard normal CDF.  Lower tail for
`p < pLow`, central region for `pLow ≤ p ≤ pHigh`, upper tail otherwise.
In the central region the source sets `q = p - 0.5`, `r = q * q`. -/
def normalInverse (p : ℝ) : ℝ :=
  if p < pLow then
    tailNum (Real.sqrt (-2 * Real.log p)) / tailDen (Real.sqrt (-2 * Real.log p))
  else if p ≤ pHigh then
    centralNum ((p - 0.5) * (p - 0.5)) * (p - 0.5) / centralDen ((p - 0.5) * (p - 0.5))
  else
    -(tailNum (Real.sqrt (-2 * Real.log (1 - p))) /
      tailDen (Real.sqrt (-2 * Real.log (1 - p))))

/-- The record returned by `calculateSampleSize` (src/script.js lines 129-133). -/
structure CalculationResult where
  controlSize : ℤ
  testSize : ℤ
  totalSize : ℤ
deriving DecidableEq

/-- `p1 = bcr / 100` (line 84): baseline rate as a proportion. -/
def p1 (bcr : ℝ) : ℝ := bcr / 100

/-- `p2 = p1 * (1 + mde / 100)` (line 88): test-group rate from the relative MDE. -/
def p2 (bcr mde : ℝ) : ℝ := p1 bcr * (1 + mde / 100)

/-- `zAlpha` (line 108): two-sided tests use `1 - alpha / 2`, one-sided `1 - alpha`. -/
def zAlpha (alpha : ℝ) (twoSided : Bool) : ℝ :=
  if twoSided then normalInverse (1 - alpha / 2) else normalInverse (1 - alpha)

/-- `zBeta = normalInverse(power)` (line 109). -/
def zBeta (power : ℝ) : ℝ := normalInverse power

/-- `delta = |p2 - p1|` (line 112): absolute effect size. -/
def delta (bcr mde : ℝ) : ℝ := |p2 bcr mde - p1 bcr|

/-- `nEqual` (line 117): equal-split per-group size,
`2 * (zAlpha + zBeta)^2 * p1 * (1 - p1) / delta^2`. -/
def nEqual (bcr mde alpha power : ℝ) (twoSided : Bool) : ℝ :=
  2 * (zAlpha alpha twoSided + zBeta power) ^ 2 * p1 bcr * (1 - p1 bcr) /
    delta bcr mde ^ 2

/-- `k = splitRatio / (1 - splitRatio)` (line 121): test-to-control ratio. -/
def k (s : ℝ) : ℝ := s / (1 - s)

/-- `controlSize = Math.ceil(nEqual * (1 + 1 / k) / 2)` (line 125). -/
def controlSize (bcr mde alpha power : ℝ) (twoSided : Bool) (s : ℝ) : ℤ :=
  ⌈nEqual bcr mde alpha power twoSided * (1 + 1 / k s) / 2⌉

/-- `testSize = Math.ceil(controlSize * k)` (line 126). -/
def testSize (bcr mde alpha power : ℝ) (twoSided : Bool) (s : ℝ) : ℤ :=
  ⌈(controlSize bcr mde alpha power twoSided s : ℝ) * k s⌉

/-- `calculateSampleSize` (src/script.js lines 81-138): the validation cascade
(lines 91-105, in source order, first failing check throws) followed by the
size computation; `totalSize = controlSize + testSize` (line 127). -/
def calculateSampleSize (bcr mde alpha power : ℝ) (twoSided : Bool) (s : ℝ) :
    Except String CalculationResult :=
  if p1 bcr ≤ 0 ∨ 1 ≤ p1 bcr then
    Except.error "Baseline conversion rate must be between 0 and 100%"
  else if p2 bcr mde ≤ 0 ∨ 1 < p2 bcr mde then
    Except.error "Resulting test conversion rate is invalid. Try a smaller MDE."
  else if alpha ≤ 0 ∨ 1 ≤ alpha then
    Except.error "Significance level must be between 0 and 1"
  else if power ≤ 0 ∨ 1 ≤ power then
    Except.error "Statistical power must be between 0 and 1"
  else if s ≤ 0 ∨ 1 ≤ s then
    Except.error "Split ratio must be between 0 and 1"
  else
    Except.ok ⟨controlSize bcr mde alpha power twoSided s,
               testSize bcr mde alpha power twoSided s,
               controlSize bcr mde alpha power twoSided s +
                 testSize bcr mde alpha power twoSided s⟩

/-- Validation cascade exactly as the spec words it: check `0 < p1 < 1`,
then `0 < p2 ≤ 1`, then `0 < alpha < 1`, then `0 < power < 1`, then
`0 < splitRatio < 1`, failing on the first violated condition with that
condition's distinct message.  Stated from the spec, to be compared with
`calculateSampleSize`. -/
def specValidationCascade (bcr mde alpha power : ℝ) (twoSided : Bool) (s : ℝ) :
    Except String CalculationResult :=
  if 0 < p1 bcr ∧ p1 bcr < 1 then
    if 0 < p2 bcr mde ∧ p2 bcr mde ≤ 1 then
      if 0 < alpha ∧ alpha < 1 then
        if 0 < power ∧ power < 1 then
          if 0 < s ∧ s < 1 then
            Except.ok ⟨controlSize bcr mde alpha power twoSided s,
                       testSize bcr mde alpha power twoSided s,
                       controlSize bcr mde alpha power twoSided s +
                         testSize bcr mde alpha power twoSided s⟩
          else Except.error "Split ratio must be between 0 and 1"
        else Except.error "Statistical power must be between 0 and 1"
      else Except.error "Significance level must be between 0 and 1"
    else Except.error "Resulting test conversion rate is invalid. Try a smaller MDE."
  else Except.error "Baseline conversion rate must be between 0 and 100%"

end

/-! ### Helper lemmas -/

/-- The code's rejection test `x ≤ 0 ∨ 1 ≤ x` is the negation of the spec's
acceptance range `0 < x < 1`. -/
theorem openRange_reject_iff (x : ℝ) : (x ≤ 0 ∨ 1 ≤ x) ↔ ¬(0 < x ∧ x < 1) := by
  rw [not_and_or, not_lt, not_lt]

/-- The code's rejection test `y ≤ 0 ∨ 1 < y` is the negation of the spec's
acceptance range `0 < y ≤ 1`. -/
theorem halfOpenRange_reject_iff (y : ℝ) : (y ≤ 0 ∨ 1 < y) ↔ ¬(0 < y ∧ y ≤ 1) := by
  rw [not_and_or, not_lt, not_le]

/-- On inputs that pass all five validation checks, `calculateSampleSize`
returns the size record built from `controlSize` and `testSize`. -/
theorem calc_ok_of_valid (bcr mde alpha power : ℝ) (twoSided : Bool) (s : ℝ)
    (h1 : 0 < p1 bcr) (h2 : p1 bcr < 1)
    (h3 : 0 < p2 bcr mde) (h4 : p2 bcr mde ≤ 1)
    (h5 : 0 < alpha) (h6 : alpha < 1)
    (h7 : 0 < power) (h8 : power < 1)
    (h9 : 0 < s) (h10 : s < 1) :
    calculateSampleSize bcr mde alpha power twoSided s =
      Except.ok ⟨controlSize bcr mde alpha power twoSided s,
                 testSize bcr mde alpha power twoSided s,
                 controlSize bcr mde alpha power twoSided s +
                   testSize bcr mde alpha power twoSided s⟩ := by
  have n1 : ¬(p1 bcr ≤ 0 ∨ 1 ≤ p1 bcr) := by push_neg; exact ⟨h1, h2⟩
  have n2 : ¬(p2 bcr mde ≤ 0 ∨ 1 < p2 bcr mde) := by push_neg; exact ⟨h3, h4⟩
  have n3 : ¬(alpha ≤ 0 ∨ 1 ≤ alpha) := by push_neg; exact ⟨h5, h6⟩
  have n4 : ¬(power ≤ 0 ∨ 1 ≤ power) := by push_neg; exact ⟨h7, h8⟩
  have n5 : ¬(s ≤ 0 ∨ 1 ≤ s) := by push_neg; exact ⟨h9, h10⟩
  unfold calculateSampleSize
  rw [if_neg n1, if_neg n2, if_neg n3, if_neg n4, if_neg n5]

/-- Central-branch unfolding of `normalInverse`. -/
theorem normalInverse_central (p : ℝ) (hlow : ¬(p < pLow)) (hhigh : p ≤ pHigh) :
    normalInverse p =
      centralNum ((p - 0.5) * (p - 0.5)) * (p - 0.5) /
        centralDen ((p - 0.5) * (p - 0.5)) := by
  unfold normalInverse
  rw [if_neg hlow, if_pos hhigh]

/-- `normalInverse` is exactly `0` at `p = 0.5` (central branch, `q = 0`). -/
theorem normalInverse_half : normalInverse 0.5 = 0 := by
  have h1 : ¬((0.5 : ℝ) < pLow) := by norm_num [pLow]
  have h2 : (0.5 : ℝ) ≤ pHigh := by norm_num [pHigh, pLow]
  rw [normalInverse_central 0.5 h1 h2]
  norm_num

/-- With `alpha = power = 0.5` and a one-sided test, both z-scores are exactly
`0`, so every size comes out `0`: `calculateSampleSize` succeeds with the
degenerate record `⟨0, 0, 0⟩`. -/
theorem calc_at_half_alpha_power (b m : ℝ)
    (h1 : 0 < p1 b) (h2 : p1 b < 1) (h3 : 0 < p2 b m) (h4 : p2 b m ≤ 1) :
    calculateSampleSize b m 0.5 0.5 false 0.5 = Except.ok ⟨0, 0, 0⟩ := by
  have hz : zAlpha 0.5 false = 0 := by
    unfold zAlpha
    rw [if_neg (by simp), show (1 : ℝ) - 0.5 = 0.5 by norm_num, normalInverse_half]
  have hzb : zBeta 0.5 = 0 := by rw [zBeta, normalInverse_half]
  have hn : nEqual b m 0.5 0.5 false = 0 := by
    rw [nEqual, hz, hzb]; simp
  have hc : controlSize b m 0.5 0.5 false 0.5 = 0 := by
    rw [controlSize, hn]; simp
  have ht : testSize b m 0.5 0.5 false 0.5 = 0 := by
    rw [testSize, hc]; simp
  rw [calc_ok_of_valid b m 0.5 0.5 false 0.5 h1 h2 h3 h4 (by norm_num) (by norm_num)
        (by norm_num) (by norm_num) (by norm_num) (by norm_num), hc, ht]
  norm_num

/-- Exact reflection symmetry of the piecewise rational approximation: for
`p` in `(0,1)`, the upper-tail branch is the mirrored lower-tail branch and
the central branch is odd around `p = 0.5`, so
`normalInverse (1 - p) = -(normalInverse p)` holds with zero error. -/
theorem normalInverse_reflect (p : ℝ) (h0 : 0 < p) (h1 : p < 1) :
    normalInverse (1 - p) = -normalInverse p := by
  by_cases hA : p < pLow
  · have hL : ¬(1 - p < pLow) := by
      rw [not_lt]; simp only [pLow] at hA ⊢; linarith
    have hH : ¬(1 - p ≤ pHigh) := by
      rw [not_le]; simp only [pHigh, pLow] at hA ⊢; linarith
    unfold normalInverse
    rw [if_neg hL, if_neg hH, if_pos hA, show (1 : ℝ) - (1 - p) = p by ring]
  · by_cases hB : p ≤ pHigh
    · have hL : ¬(1 - p < pLow) := by
        rw [not_lt]; simp only [pHigh, pLow] at hB ⊢; linarith
      have hH : 1 - p ≤ pHigh := by
        rw [not_lt] at hA; simp only [pHigh, pLow] at hA ⊢; linarith
      unfold normalInverse
      rw [if_neg hL, if_pos hH, if_neg hA, if_pos hB,
        show (1 : ℝ) - p - 0.5 = -(p - 0.5) by ring,
        show -((p : ℝ) - 0.5) * -(p - 0.5) = (p - 0.5) * (p - 0.5) by ring,
        mul_neg, neg_div]
    · have hL : 1 - p < pLow := by
        rw [not_le] at hB; simp only [pHigh, pLow] at hB ⊢; linarith
      unfold normalInverse
      rw [if_pos hL, if_neg hA, if_neg hB, neg_neg]

/-- C7: for all `p` in `(0,1)`, `quantile(p) ≈ -quantile(1-p)` within the
approximation's accuracy tolerance of `1e-9` relative error.  The
approximation is in fact exactly antisymmetric, so the deviation is `0`. -/
theorem C7_quantile_symmetry (p : ℝ) (h0 : 0 < p) (h1 : p < 1) :
    |normalInverse p + normalInverse (1 - p)| ≤ 1e-9 * |normalInverse p| := by
  have hz : normalInverse p + normalInverse (1 - p) = 0 := by
    rw [normalInverse_reflect p h0 h1]; ring
  rw [hz, abs_zero]
  positivity

/-- Witness for C7 at `p = 0.3`. -/
theorem C7_witness :
    (0 : ℝ) < 0.3 ∧ (0.3 : ℝ) < 1 ∧
      |normalInverse 0.3 + normalInverse (1 - 0.3)| ≤ 1e-9 * |normalInverse 0.3| :=
  ⟨by norm_num, by norm_num, C7_quantile_symmetry 0.3 (by norm_num) (by norm_num)⟩

/-- C1: on every input that passes validation and has `delta > 0`,
`calculateSampleSize` succeeds with sizes built from `nEqual`, and `nEqual`
is exactly `2 * (zAlpha + zBeta)^2 * p1 * (1 - p1) / delta^2` — the variance
term uses the baseline proportion `p1` alone. -/
theorem C1_nEqual_baseline_variance (bcr mde alpha power : ℝ) (twoSided : Bool) (s : ℝ)
    (h1 : 0 < p1 bcr) (h2 : p1 bcr < 1)
    (h3 : 0 < p2 bcr mde) (h4 : p2 bcr mde ≤ 1)
    (h5 : 0 < alpha) (h6 : alpha < 1) (h7 : 0 < power) (h8 : power < 1)
    (h9 : 0 < s) (h10 : s < 1) (hd : 0 < delta bcr mde) :
    calculateSampleSize bcr mde alpha power twoSided s =
      Except.ok ⟨controlSize bcr mde alpha power twoSided s,
                 testSize bcr mde alpha power twoSided s,
                 controlSize bcr mde alpha power twoSided s +
                   testSize bcr mde alpha power twoSided s⟩ ∧
    nEqual bcr mde alpha power twoSided =
      2 * (zAlpha alpha twoSided + zBeta power) ^ 2 *
        (p1 bcr * (1 - p1 bcr)) / delta bcr mde ^ 2 := by
  refine ⟨calc_ok_of_valid bcr mde alpha power twoSided s h1 h2 h3 h4 h5 h6 h7 h8 h9 h10, ?_⟩
  rw [nEqual]; ring

/-- Witness for C1 at `bcr = 5`, `mde = 30`, `alpha = 0.05`, `power = 0.8`,
two-sided, `splitRatio = 0.6`. -/
theorem C1_witness :
    calculateSampleSize 5 30 0.05 0.8 true 0.6 =
      Except.ok ⟨controlSize 5 30 0.05 0.8 true 0.6,
                 testSize 5 30 0.05 0.8 true 0.6,
                 controlSize 5 30 0.05 0.8 true 0.6 + testSize 5 30 0.05 0.8 true 0.6⟩ ∧
    nEqual 5 30 0.05 0.8 true =
      2 * (zAlpha 0.05 true + zBeta 0.8) ^ 2 * (p1 5 * (1 - p1 5)) / delta 5 30 ^ 2 :=
  C1_nEqual_baseline_variance 5 30 0.05 0.8 true 0.6
    (by norm_num [p1]) (by norm_num [p1]) (by norm_num [p2, p1]) (by norm_num [p2, p1])
    (by norm_num) (by norm_num) (by norm_num) (by norm_num) (by norm_num) (by norm_num)
    (by simp only [delta, p2, p1]; rw [abs_pos]; norm_num)

/-- C3: `calculateSampleSize` validates `p1`, `p2`, `alpha`, `power`, and the
split ratio in exactly that order, each with its own distinct message, with
the first violated condition deciding the outcome: it equals the
spec-ordered cascade `specValidationCascade` on all inputs, and the five
messages are pairwise distinct. -/
theorem C3_validation_first_violation_wins :
    (∀ (bcr mde alpha power : ℝ) (twoSided : Bool) (s : ℝ),
      calculateSampleSize bcr mde alpha power twoSided s =
        specValidationCascade bcr mde alpha power twoSided s) ∧
    ("Baseline conversion rate must be between 0 and 100%" ≠
        "Resulting test conversion rate is invalid. Try a smaller MDE." ∧
      "Baseline conversion rate must be between 0 and 100%" ≠
        "Significance level must be between 0 and 1" ∧
      "Baseline conversion rate must be between 0 and 100%" ≠
        "Statistical power must be between 0 and 1" ∧
      "Baseline conversion rate must be between 0 and 100%" ≠
        "Split ratio must be between 0 and 1" ∧
      "Resulting test conversion rate is invalid. Try a smaller MDE." ≠
        "Significance level must be between 0 and 1" ∧
      "Resulting test conversion rate is invalid. Try a smaller MDE." ≠
        "Statistical power must be between 0 and 1" ∧
      "Resulting test conversion rate is invalid. Try a smaller MDE." ≠
        "Split ratio must be between 0 and 1" ∧
      "Significance level must be between 0 and 1" ≠
        "Statistical power must be between 0 and 1" ∧
      "Significance level must be between 0 and 1" ≠
        "Split ratio must be between 0 and 1" ∧
      "Statistical power must be between 0 and 1" ≠
        "Split ratio must be between 0 and 1") := by
  constructor
  · intro bcr mde alpha power twoSided s
    unfold calculateSampleSize specValidationCascade
    simp only [openRange_reject_iff, halfOpenRange_reject_iff, ite_not]
  · refine ⟨?_, ?_, ?_, ?_, ?_, ?_, ?_, ?_, ?_, ?_⟩ <;> decide

/-- C5: on every validated input, the z-scores used by `calculateSampleSize`
are `zAlpha = normalInverse (1 - alpha/2)` for a two-sided test,
`zAlpha = normalInverse (1 - alpha)` for a one-sided one, and
`zBeta = normalInverse power`. -/
theorem C5_zscore_derivation (bcr mde alpha power : ℝ) (twoSided : Bool) (s : ℝ)
    (h1 : 0 < p1 bcr) (h2 : p1 bcr < 1)
    (h3 : 0 < p2 bcr mde) (h4 : p2 bcr mde ≤ 1)
    (h5 : 0 < alpha) (h6 : alpha < 1) (h7 : 0 < power) (h8 : power < 1)
    (h9 : 0 < s) (h10 : s < 1) :
    calculateSampleSize bcr mde alpha power twoSided s =
      Except.ok ⟨controlSize bcr mde alpha power twoSided s,
                 testSize bcr mde alpha power twoSided s,
                 controlSize bcr mde alpha power twoSided s +
                   testSize bcr mde alpha power twoSided s⟩ ∧
    zAlpha alpha twoSided =
      (if twoSided then normalInverse (1 - alpha / 2) else normalInverse (1 - alpha)) ∧
    zBeta power = normalInverse power :=
  ⟨calc_ok_of_valid bcr mde alpha power twoSided s h1 h2 h3 h4 h5 h6 h7 h8 h9 h10, rfl, rfl⟩

/-- Witness for C5 at `bcr = 4`, `mde = 25`, `alpha = 0.1`, `power = 0.9`,
one-sided, `splitRatio = 0.5`. -/
theorem C5_witness :
    calculateSampleSize 4 25 0.1 0.9 false 0.5 =
      Except.ok ⟨controlSize 4 25 0.1 0.9 false 0.5,
                 testSize 4 25 0.1 0.9 false 0.5,
                 controlSize 4 25 0.1 0.9 false 0.5 + testSize 4 25 0.1 0.9 false 0.5⟩ ∧
    zAlpha 0.1 false =
      (if false then normalInverse (1 - 0.1 / 2) else normalInverse (1 - 0.1)) ∧
    zBeta 0.9 = normalInverse 0.9 :=
  C5_zscore_derivation 4 25 0.1 0.9 false 0.5
    (by norm_num [p1]) (by norm_num [p1]) (by norm_num [p2, p1]) (by norm_num [p2, p1])
    (by norm_num) (by norm_num) (by norm_num) (by norm_num) (by norm_num) (by norm_num)

/-- C6: on every validated input with nonzero effect size, the unequal-split
adjustment uses `k = splitRatio / (1 - splitRatio)`,
`controlSize = ⌈nEqual * (1 + 1/k) / 2⌉`, `testSize = ⌈controlSize * k⌉`
and `totalSize = controlSize + testSize`. -/
theorem C6_unequal_split_adjustment (bcr mde alpha power : ℝ) (twoSided : Bool) (s : ℝ)
    (h1 : 0 < p1 bcr) (h2 : p1 bcr < 1)
    (h3 : 0 < p2 bcr mde) (h4 : p2 bcr mde ≤ 1)
    (h5 : 0 < alpha) (h6 : alpha < 1) (h7 : 0 < power) (h8 : power < 1)
    (h9 : 0 < s) (h10 : s < 1) (hd : delta bcr mde ≠ 0) :
    k s = s / (1 - s) ∧
    calculateSampleSize bcr mde alpha power twoSided s =
      Except.ok ⟨⌈nEqual bcr mde alpha power twoSided * (1 + 1 / k s) / 2⌉,
                 ⌈((⌈nEqual bcr mde alpha power twoSided * (1 + 1 / k s) / 2⌉ : ℤ) : ℝ) *
                     k s⌉,
                 ⌈nEqual bcr mde alpha power twoSided * (1 + 1 / k s) / 2⌉ +
                   ⌈((⌈nEqual bcr mde alpha power twoSided * (1 + 1 / k s) / 2⌉ : ℤ) : ℝ) *
                       k s⌉⟩ :=
  ⟨rfl, calc_ok_of_valid bcr mde alpha power twoSided s h1 h2 h3 h4 h5 h6 h7 h8 h9 h10⟩

/-- Witness for C6 at `bcr = 5`, `mde = 30`, `alpha = 0.05`, `power = 0.8`,
two-sided, `splitRatio = 0.8`. -/
theorem C6_witness :
    k 0.8 = 0.8 / (1 - 0.8) ∧
    calculateSampleSize 5 30 0.05 0.8 true 0.8 =
      Except.ok ⟨⌈nEqual 5 30 0.05 0.8 true * (1 + 1 / k 0.8) / 2⌉,
                 ⌈((⌈nEqual 5 30 0.05 0.8 true * (1 + 1 / k 0.8) / 2⌉ : ℤ) : ℝ) * k 0.8⌉,
                 ⌈nEqual 5 30 0.05 0.8 true * (1 + 1 / k 0.8) / 2⌉ +
                   ⌈((⌈nEqual 5 30 0.05 0.8 true * (1 + 1 / k 0.8) / 2⌉ : ℤ) : ℝ) * k 0.8⌉⟩ :=
  C6_unequal_split_adjustment 5 30 0.05 0.8 true 0.8
    (by norm_num [p1]) (by norm_num [p1]) (by norm_num [p2, p1]) (by norm_num [p2, p1])
    (by norm_num) (by norm_num) (by norm_num) (by norm_num) (by norm_num) (by norm_num)
    (by simp only [delta, p2, p1]; rw [abs_ne_zero]; norm_num)

/-- C2 fails on the code: at `mde = 0` (so `delta = 0`) the otherwise-valid
input `(5, 0, 0.05, 0.8, two-sided, 0.5)` sails through validation and
`calculateSampleSize` returns a success value instead of any "effect size
must be non-zero" error.  (In the real-number embedding the division by
zero collapses to `0`, giving the degenerate record `⟨0, 0, 0⟩`; in the
JavaScript source the same division yields `Infinity`-valued sizes.  Either
way no error is signalled.) -/
theorem C2_zero_effect_not_guarded :
    calculateSampleSize 5 0 0.05 0.8 true 0.5 = Except.ok ⟨0, 0, 0⟩ := by
  have hdelta : delta 5 0 = 0 := by
    simp only [delta, p2, p1]; rw [abs_eq_zero]; norm_num
  have hn : nEqual 5 0 0.05 0.8 true = 0 := by
    rw [nEqual, hdelta]; norm_num
  have hc : controlSize 5 0 0.05 0.8 true 0.5 = 0 := by
    rw [controlSize, hn]; simp
  have ht : testSize 5 0 0.05 0.8 true 0.5 = 0 := by
    rw [testSize, hc]; simp
  rw [calc_ok_of_valid 5 0 0.05 0.8 true 0.5
        (by norm_num [p1]) (by norm_num [p1]) (by norm_num [p2, p1]) (by norm_num [p2, p1])
        (by norm_num) (by norm_num) (by norm_num) (by norm_num) (by norm_num) (by norm_num),
      hc, ht]
  norm_num

/-- Counterexample to C4 as stated: the input `(5, 30, 0.5, 0.5, one-sided,
0.5)` passes validation and has nonzero effect size, yet both z-scores are
exactly `0`, so both group sizes come out `0`, not `≥ 1`. -/
theorem C4_counterexample :
    calculateSampleSize 5 30 0.5 0.5 false 0.5 = Except.ok ⟨0, 0, 0⟩ ∧
    delta 5 30 ≠ 0 ∧ ¬(1 ≤ (0 : ℤ)) := by
  refine ⟨calc_at_half_alpha_power 5 30
      (by norm_num [p1]) (by norm_num [p1]) (by norm_num [p2, p1]) (by norm_num [p2, p1]),
    ?_, by decide⟩
  simp only [delta, p2, p1]; rw [abs_ne_zero]; norm_num

/-- C4 amended: on every validated input whose `nEqual` is positive (the
spec's own proviso: "ceiling rounding guarantees this as long as
nEqual > 0"), the result satisfies `totalSize = controlSize + testSize` with
both group sizes at least `1`. -/
theorem C4_amended_result_consistency (bcr mde alpha power : ℝ) (twoSided : Bool) (s : ℝ)
    (h1 : 0 < p1 bcr) (h2 : p1 bcr < 1)
    (h3 : 0 < p2 bcr mde) (h4 : p2 bcr mde ≤ 1)
    (h5 : 0 < alpha) (h6 : alpha < 1) (h7 : 0 < power) (h8 : power < 1)
    (h9 : 0 < s) (h10 : s < 1)
    (hn : 0 < nEqual bcr mde alpha power twoSided) :
    ∃ r : CalculationResult,
      calculateSampleSize bcr mde alpha power twoSided s = Except.ok r ∧
      r.totalSize = r.controlSize + r.testSize ∧
      1 ≤ r.controlSize ∧ 1 ≤ r.testSize := by
  have hk : 0 < k s := div_pos h9 (by linarith)
  have hik : 0 < 1 + 1 / k s := by positivity
  have hcpos : 0 < controlSize bcr mde alpha power twoSided s := by
    rw [controlSize]
    exact Int.ceil_pos.mpr (by positivity)
  have htpos : 0 < testSize bcr mde alpha power twoSided s := by
    rw [testSize]
    refine Int.ceil_pos.mpr (mul_pos ?_ hk)
    exact_mod_cast hcpos
  exact ⟨_, calc_ok_of_valid bcr mde alpha power twoSided s h1 h2 h3 h4 h5 h6 h7 h8 h9 h10,
    rfl, hcpos, htpos⟩

/-- The central branch of `normalInverse` is strictly positive at `p = 0.8`:
numerator and denominator polynomials are both positive at `r = 0.09` and
`q = 0.3 > 0`. -/
theorem normalInverse_point8_pos : 0 < normalInverse 0.8 := by
  have h1 : ¬((0.8 : ℝ) < pLow) := by norm_num [pLow]
  have h2 : (0.8 : ℝ) ≤ pHigh := by norm_num [pHigh, pLow]
  rw [normalInverse_central 0.8 h1 h2,
    show ((0.8 : ℝ) - 0.5) * ((0.8 : ℝ) - 0.5) = 0.09 by norm_num]
  have hnum : 0 < centralNum 0.09 := by norm_num [centralNum]
  have hden : 0 < centralDen 0.09 := by norm_num [centralDen]
  exact div_pos (mul_pos hnum (by norm_num)) hden

/-- `nEqual` is positive at `bcr = 5`, `mde = 30`, `alpha = 0.2`,
`power = 0.8`, one-sided: both z-scores equal `normalInverse 0.8 > 0`. -/
theorem nEqual_pos_example : 0 < nEqual 5 30 0.2 0.8 false := by
  have hz : zAlpha 0.2 false = normalInverse 0.8 := by
    unfold zAlpha
    rw [if_neg (by simp), show (1 : ℝ) - 0.2 = 0.8 by norm_num]
  have hz8 := normalInverse_point8_pos
  have hd2 : 0 < delta 5 30 ^ 2 := by
    have hd : delta 5 30 ≠ 0 := by
      simp only [delta, p2, p1]; rw [abs_ne_zero]; norm_num
    positivity
  rw [nEqual, hz, zBeta]
  apply div_pos _ hd2
  have hp1 : 0 < p1 5 := by norm_num [p1]
  have hp1' : p1 5 < 1 := by norm_num [p1]
  have hsum : 0 < normalInverse 0.8 + normalInverse 0.8 := by linarith
  have hsq := pow_pos hsum 2
  exact mul_pos (mul_pos (mul_pos two_pos hsq) hp1) (by linarith)

/-- Witness for the amended C4 at `(5, 30, 0.2, 0.8, one-sided, 0.5)`. -/
theorem C4_amended_witness :
    ∃ r : CalculationResult,
      calculateSampleSize 5 30 0.2 0.8 false 0.5 = Except.ok r ∧
      r.totalSize = r.controlSize + r.testSize ∧
      1 ≤ r.controlSize ∧ 1 ≤ r.testSize :=
  C4_amended_result_consistency 5 30 0.2 0.8 false 0.5
    (by norm_num [p1]) (by norm_num [p1]) (by norm_num [p2, p1]) (by norm_num [p2, p1])
    (by norm_num) (by norm_num) (by norm_num) (by norm_num) (by norm_num) (by norm_num)
    nEqual_pos_example

/-- Counterexample to C8 as stated: with `alpha = 1.5` but `bcr = 200` the
baseline check fires first, so the failure is the baseline message, not the
significance message — the significance error is not raised "regardless of
the other inputs". -/
theorem C8_counterexample :
    calculateSampleSize 200 30 1.5 0.8 true 0.5 =
      Except.error "Baseline conversion rate must be between 0 and 100%" ∧
    calculateSampleSize 200 30 1.5 0.8 true 0.5 ≠
      Except.error "Significance level must be between 0 and 1" := by
  have h : calculateSampleSize 200 30 1.5 0.8 true 0.5 =
      Except.error "Baseline conversion rate must be between 0 and 100%" := by
    unfold calculateSampleSize
    rw [if_pos (Or.inr (by norm_num [p1]))]
  refine ⟨h, ?_⟩
  rw [h]
  intro hcon
  exact absurd (Except.error.inj hcon) (by decide)

/-- C8 amended: with `alpha = 1.5` and the earlier checks satisfiable
(`0 < p1 < 1` and `0 < p2 ≤ 1`), `calculateSampleSize` fails with the
significance-level message regardless of `power`, sidedness and split
ratio. -/
theorem C8_amended_alpha_out_of_range (bcr mde power : ℝ) (twoSided : Bool) (s : ℝ)
    (h1 : 0 < p1 bcr) (h2 : p1 bcr < 1)
    (h3 : 0 < p2 bcr mde) (h4 : p2 bcr mde ≤ 1) :
    calculateSampleSize bcr mde 1.5 power twoSided s =
      Except.error "Significance level must be between 0 and 1" := by
  have n1 : ¬(p1 bcr ≤ 0 ∨ 1 ≤ p1 bcr) := by push_neg; exact ⟨h1, h2⟩
  have n2 : ¬(p2 bcr mde ≤ 0 ∨ 1 < p2 bcr mde) := by push_neg; exact ⟨h3, h4⟩
  unfold calculateSampleSize
  rw [if_neg n1, if_neg n2, if_pos (Or.inr (by norm_num))]

/-- Witness for the amended C8: even with invalid `power = 2` and
`splitRatio = 3`, the significance error is the one reported. -/
theorem C8_amended_witness :
    calculateSampleSize 5 30 1.5 2 true 3 =
      Except.error "Significance level must be between 0 and 1" :=
  C8_amended_alpha_out_of_range 5 30 2 true 3
    (by norm_num [p1]) (by norm_num [p1]) (by norm_num [p2, p1]) (by norm_num [p2, p1])

/-- C9: on every otherwise-valid input with `splitRatio = 0.5`,
`calculateSampleSize` succeeds and the returned test size equals the control
size within the claim's `±1` ceiling allowance (here `k = 1`, so they are in
fact exactly equal). -/
theorem C9_split_symmetry (bcr mde alpha power : ℝ) (twoSided : Bool)
    (h1 : 0 < p1 bcr) (h2 : p1 bcr < 1)
    (h3 : 0 < p2 bcr mde) (h4 : p2 bcr mde ≤ 1)
    (h5 : 0 < alpha) (h6 : alpha < 1) (h7 : 0 < power) (h8 : power < 1) :
    ∃ r : CalculationResult,
      calculateSampleSize bcr mde alpha power twoSided 0.5 = Except.ok r ∧
      |r.testSize - r.controlSize| ≤ 1 := by
  refine ⟨_, calc_ok_of_valid bcr mde alpha power twoSided 0.5 h1 h2 h3 h4 h5 h6 h7 h8
    (by norm_num) (by norm_num), ?_⟩
  have hk : k 0.5 = 1 := by rw [k]; norm_num
  have ht : testSize bcr mde alpha power twoSided 0.5 =
      controlSize bcr mde alpha power twoSided 0.5 := by
    rw [testSize, hk, mul_one, Int.ceil_intCast]
  simp [ht]

/-- Witness for C9 at `(10, 20, 0.3, 0.7, two-sided, 0.5)`. -/
theorem C9_witness :
    ∃ r : CalculationResult,
      calculateSampleSize 10 20 0.3 0.7 true 0.5 = Except.ok r ∧
      |r.testSize - r.controlSize| ≤ 1 :=
  C9_split_symmetry 10 20 0.3 0.7 true
    (by norm_num [p1]) (by norm_num [p1]) (by norm_num [p2, p1]) (by norm_num [p2, p1])
    (by norm_num) (by norm_num) (by norm_num) (by norm_num)
